import Mathlib

/-!
Verification development for the DevOpsPilot AI engine
(`src/ai-engine/models/anomaly_detection.py`, `predictive_scaling.py`,
`root_cause_analysis.py`).

Modelling conventions (shallow embedding):
* Python floats are modelled as rationals (`ℚ`).  Square roots (population
  standard deviation) are modelled by `ratSqrt`, which is exact whenever the
  radicand's numerator and denominator are perfect squares; all concrete
  inputs appearing in theorems below are chosen so that every square root
  taken is exact, hence the rational model agrees with the source there.
  Division by zero yields `0` in `ℚ` (where the source would produce NaN);
  no theorem below depends on this corner.
* A pandas `DataFrame` holding one metric series is modelled as the list of
  values of its single numeric column, named `"value"` (the `timestamp`
  column is non-numeric and is excluded by every `select_dtypes` call in the
  source; series are assumed free of missing values, so `fillna` is the
  identity and is dropped from the embedding).
* Python dicts used as model bundles are modelled as insertion-ordered
  association lists with in-place update (`insertA`), matching dict update
  semantics and `len` (`lengthA` = number of distinct keys).
* Fitted sklearn estimators are opaque: a fitted model value records the
  algorithm name and the matrix it was fitted on; its predictions are
  uninterpreted functions universally quantified in the theorems.
-/

namespace DevOpsPilot

/-! ### Association lists (Python dict model) -/

/-- Lookup in an insertion-ordered association list (Python `d[k]` / `d.get(k)`). -/
def lookupA {α : Type} (m : List (String × α)) (k : String) : Option α :=
  match m with
  | [] => none
  | (k2, v) :: rest => if k2 = k then some v else lookupA rest k

/-- Insert-or-replace (Python `d[k] = v`): replaces in place if the key is
present, otherwise appends, preserving insertion order. -/
def insertA {α : Type} (k : String) (v : α) (m : List (String × α)) :
    List (String × α) :=
  match m with
  | [] => [(k, v)]
  | (k2, v2) :: rest =>
      if k2 = k then (k, v) :: rest else (k2, v2) :: insertA k v rest

/-! ### Rational numerics -/

/-- Mean of a list of rationals (`np.mean`); `0` for the empty list,
where `np.mean` yields NaN — detection guards the empty case explicitly,
`analyze_root_cause` does not, and no theorem below depends on the value
of an empty mean. -/
def ratMean (l : List ℚ) : ℚ := l.sum / l.length

/-- Rational square root: exact whenever numerator and denominator are
perfect squares (every concrete instance below is); junk otherwise. -/
def ratSqrt (q : ℚ) : ℚ := (Nat.sqrt q.num.toNat : ℚ) / (Nat.sqrt q.den : ℚ)

/-- Population variance (`np.var`, ddof = 0). -/
def popVar (l : List ℚ) : ℚ := ratMean (l.map (fun x => (x - ratMean l) ^ 2))

/-- Population standard deviation (`np.std`, ddof = 0). -/
def popStd (l : List ℚ) : ℚ := ratSqrt (popVar l)

/-- Insert into an ascending list (helper for `sortAsc`). -/
def insertAsc (x : ℚ) : List ℚ → List ℚ
  | [] => [x]
  | y :: ys => if x ≤ y then x :: y :: ys else y :: insertAsc x ys

/-- Ascending insertion sort (used to model `np.percentile` /
`Series.quantile`, which sort their input). -/
def sortAsc : List ℚ → List ℚ
  | [] => []
  | x :: xs => insertAsc x (sortAsc xs)

/-- Linear-interpolation quantile of a list, `p ∈ [0,1]`: numpy/pandas
default interpolation, `h = (n-1)p`, result `s⌊h⌋ + (s⌈h⌉ - s⌊h⌋)(h-⌊h⌋)`
over the ascending sort `s`. Returns `0` on the empty list (the source
raises there; every use below is guarded by the same emptiness checks the
source performs). -/
def quantile (l : List ℚ) (p : ℚ) : ℚ :=
  let s := sortAsc l
  let n := s.length
  if n = 0 then 0
  else
    let h : ℚ := ((n : ℚ) - 1) * p
    let f : ℕ := h.floor.toNat
    let c : ℕ := min (f + 1) (n - 1)
    let lo := s.getD f 0
    let hi := s.getD c 0
    lo + (hi - lo) * (h - (f : ℚ))

/-- Absolute z-scores of a list (`np.abs(stats.zscore(values))`, ddof = 0). -/
def absZscores (l : List ℚ) : List ℚ :=
  l.map (fun x => |(x - ratMean l) / popStd l|)

/-! ### Anomaly detection model (`anomaly_detection.py`) -/

/-- A fitted `StandardScaler` over the single numeric column: records
`mean_` and `scale_` (sklearn replaces a zero standard deviation by 1). -/
structure ScalerFit where
  m : ℚ
  s : ℚ
deriving DecidableEq

/-- `StandardScaler().fit(v)`. -/
def fitScaler (v : List ℚ) : ScalerFit :=
  ⟨ratMean v, if popStd v = 0 then 1 else popStd v⟩

/-- `scaler.transform(v)`. -/
def applyScaler (sc : ScalerFit) (v : List ℚ) : List ℚ :=
  v.map (fun x => (x - sc.m) / sc.s)

/-- A fitted sklearn estimator, kept opaque: the algorithm name and the
matrix it was fitted on.  Its predictions are uninterpreted functions
(universally quantified in the theorems). -/
structure FittedModel where
  algo : String
  fitData : List ℚ
deriving DecidableEq

/-- The parts of the anomaly detector's default configuration that the
embedded code paths read (`statistical.iqr_multiplier`,
`statistical.z_score_threshold`, `confidence_threshold`). -/
structure AnomalyConfig where
  iqr_multiplier : ℚ := 3 / 2
  z_score_threshold : ℚ := 3
  confidence_threshold : ℚ := 7 / 10
deriving DecidableEq

/-- Mutable state of `AnomalyDetectionModel`. -/
structure AnomalyDetectionModel where
  config : AnomalyConfig
  models : List (String × FittedModel)
  scalers : List (String × ScalerFit)
  thresholds : List (String × ℚ)
  is_trained : Bool
  last_training : Option ℕ
deriving DecidableEq

/-- `AnomalyDetectionModel()` — freshly constructed component. -/
def initAnomalyModel : AnomalyDetectionModel :=
  ⟨{}, [], [], [], false, none⟩

/-- The row filter of `preprocess_data`: keep rows within
`[Q1 - mult·IQR, Q3 + mult·IQR]`. -/
def iqrFilter (mult : ℚ) (v : List ℚ) : List ℚ :=
  let q1 := quantile v (1 / 4)
  let q3 := quantile v (3 / 4)
  let iqr := q3 - q1
  v.filter (fun x => decide (q1 - mult * iqr ≤ x) && decide (x ≤ q3 + mult * iqr))

/-- The data frame returned by `preprocess_data` (missing-value fill is the
identity on NaN-free series; then IQR outlier removal, then
standardization).  If every row is filtered out, `StandardScaler.fit`
raises and the handler returns the already-filtered (empty) frame. -/
def preprocessVals (cfg : AnomalyConfig) (v : List ℚ) : List ℚ :=
  let f := iqrFilter cfg.iqr_multiplier v
  if f = [] then f else applyScaler (fitScaler f) f

/-- `preprocess_data`: returns the updated component state (the method
assigns `self.scalers['standard']`) together with the processed frame. -/
def preprocess_data (st : AnomalyDetectionModel) (v : List ℚ) :
    AnomalyDetectionModel × List ℚ :=
  let f := iqrFilter st.config.iqr_multiplier v
  if f = [] then (st, f)
  else ({st with scalers := insertA "standard" (fitScaler f) st.scalers},
        applyScaler (fitScaler f) f)

/-- `train_isolation_forest`: skip silently below 10 rows, otherwise store
the fitted model under `isolation_forest_<metric>`. -/
def train_isolation_forest (st : AnomalyDetectionModel) (v : List ℚ)
    (metric_name : String) : AnomalyDetectionModel :=
  if v.length < 10 then st
  else
    let mdl : FittedModel := ⟨"isolation_forest", v⟩
    { st with models := insertA ("isolation_forest_" ++ metric_name) mdl st.models }

/-- `train_dbscan`: skip silently below 10 rows, otherwise store the fitted
model under `dbscan_<metric>`. -/
def train_dbscan (st : AnomalyDetectionModel) (v : List ℚ)
    (metric_name : String) : AnomalyDetectionModel :=
  if v.length < 10 then st
  else
    let mdl : FittedModel := ⟨"dbscan", v⟩
    { st with models := insertA ("dbscan_" ++ metric_name) mdl st.models }

/-- `_calculate_statistical_thresholds` for the single `value` column: the
95th percentile of absolute z-scores and the IQR upper bound, stored under
`<metric>_value_z_score` / `<metric>_value_iqr`.  On an empty frame
`np.percentile` raises before any write and the method's handler swallows
it, leaving the state unchanged. -/
def calculate_statistical_thresholds (st : AnomalyDetectionModel)
    (v : List ℚ) (metric_name : String) : AnomalyDetectionModel :=
  if v = [] then st
  else
    let zthr := quantile (absZscores v) (95 / 100)
    let q1 := quantile v (1 / 4)
    let q3 := quantile v (3 / 4)
    let iqrThr := q3 + st.config.iqr_multiplier * (q3 - q1)
    let ths :=
      insertA (metric_name ++ "_value_iqr") iqrThr
        (insertA (metric_name ++ "_value_z_score") zthr st.thresholds)
    { st with thresholds := ths }

/-- One iteration of the training loop of `train_models`: nonempty series
are preprocessed, fed to both trainers, and used for threshold
computation. -/
def train_metric_step (st : AnomalyDetectionModel) (p : String × List ℚ) :
    AnomalyDetectionModel :=
  if p.2.length > 0 then
    let pr := preprocess_data st p.2
    calculate_statistical_thresholds
      (train_dbscan (train_isolation_forest pr.1 pr.2 p.1) pr.2 p.1) pr.2 p.1
  else st

/-- `train_models` (anomaly detector): per-metric loop, then the trained
flag and timestamp are set; the loop body cannot raise (each helper
swallows its own failures), so the `except` branch is dead. -/
def anomaly_train_models (st : AnomalyDetectionModel)
    (training_data : List (String × List ℚ)) (now : ℕ) :
    AnomalyDetectionModel :=
  let st2 := training_data.foldl train_metric_step st
  { st2 with is_trained := true, last_training := some now }

/-- One detected anomaly: row index, detecting method, confidence, and the
source row's value (`metric_values`; our frames carry no timestamp column,
so the `timestamp` entry is always `None` and is omitted). -/
structure Anomaly where
  index : ℕ
  method : String
  confidence : ℚ
  value : ℚ
deriving DecidableEq

/-- Result dict of `detect_anomalies`.  The not-trained and error dicts
carry no counts; they are embedded with both counts `0`. -/
structure DetectResult where
  anomalies : List Anomaly
  confidence : ℚ
  method : String
  total_detected : ℕ
  filtered_count : ℕ
  error : Option String
deriving DecidableEq

/-- The annotated empty result returned when `self.is_trained` is false. -/
def notTrainedResult : DetectResult :=
  ⟨[], 0, "none", 0, 0, some "Models not trained"⟩

/-- Append each new anomaly unless its row index was already reported
(`if not any(a['index'] == idx for a in anomalies)`). -/
def dedupAppend (acc news : List Anomaly) : List Anomaly :=
  news.foldl
    (fun acc a => if acc.all (fun b => b.index ≠ a.index) then acc ++ [a]
                  else acc) acc

/-- `_detect_statistical_anomalies` on the single `value` column of the
*original* frame: z-score method against the stored (or default `3.0`)
threshold, then IQR method computed fresh from the batch, deduplicated
against the z-score findings.  On an empty frame `np.percentile` raises
after the (vacuous) z-score loop and the handler returns the empty list. -/
def detect_statistical_anomalies (cfg : AnomalyConfig)
    (thresholds : List (String × ℚ)) (v : List ℚ) (metric_name : String) :
    List Anomaly :=
  if v = [] then []
  else
    let zthr := (lookupA thresholds (metric_name ++ "_value_z_score")).getD 3
    let zAnoms := (absZscores v).enum.filterMap (fun iz =>
      if zthr < iz.2 then
        some ⟨iz.1, "z_score", min (9 / 10) (iz.2 / zthr), v.getD iz.1 0⟩
      else none)
    let q1 := quantile v (1 / 4)
    let q3 := quantile v (3 / 4)
    let iqrThr := q3 + cfg.iqr_multiplier * (q3 - q1)
    let iqrCands := v.enum.filterMap (fun ix =>
      if iqrThr < ix.2 then some ⟨ix.1, "iqr", 3 / 4, ix.2⟩ else none)
    dedupAppend zAnoms iqrCands

/-- `detect_anomalies`, parametric in the opaque prediction functions of
the stored estimators (`isoPredict mdl rows` / `dbscanFitPredict mdl rows`
give the per-row anomaly flag, i.e. prediction/label `-1`).  Returns the
component state after the call (the call mutates `self.scalers` through
`preprocess_data`) together with the result dict. -/
def detect_anomalies (isoPredict dbscanFitPredict : FittedModel → List ℚ → List Bool)
    (st : AnomalyDetectionModel) (v : List ℚ) (metric_name : String) :
    AnomalyDetectionModel × DetectResult :=
  if st.is_trained = false then (st, notTrainedResult)
  else
    let pr := preprocess_data st v
    let isoAnoms : List Anomaly :=
      match lookupA pr.1.models ("isolation_forest_" ++ metric_name) with
      | some mdl =>
          ((isoPredict mdl pr.2).enum).filterMap (fun ib =>
            if ib.2 then some ⟨ib.1, "isolation_forest", 4 / 5, v.getD ib.1 0⟩
            else none)
      | none => []
    let dbCands : List Anomaly :=
      match lookupA pr.1.models ("dbscan_" ++ metric_name) with
      | some mdl =>
          ((dbscanFitPredict mdl pr.2).enum).filterMap (fun ib =>
            if ib.2 then some ⟨ib.1, "dbscan", 7 / 10, v.getD ib.1 0⟩
            else none)
      | none => []
    let merged := dedupAppend (dedupAppend isoAnoms dbCands)
      (detect_statistical_anomalies pr.1.config pr.1.thresholds v metric_name)
    let overall := if merged = [] then 0
                   else ratMean (merged.map Anomaly.confidence)
    let filtered := merged.filter
      (fun a => pr.1.config.confidence_threshold ≤ a.confidence)
    (pr.1, ⟨filtered, overall, "ensemble", merged.length, filtered.length, none⟩)

/-- The detection result assembled from the statistical path alone: what
`detect_anomalies` returns when no per-metric model is stored for the
queried metric, so that the two model branches contribute no findings.
The thresholds argument selects the statistical thresholds in effect: the
component's stored map, or `[]` for the configuration defaults
(`thresholds.get(key, 3.0)` then always yields the default). -/
def statOnlyResult (cfg : AnomalyConfig) (thresholds : List (String × ℚ))
    (v : List ℚ) (metric_name : String) : DetectResult :=
  let merged := dedupAppend []
    (detect_statistical_anomalies cfg thresholds v metric_name)
  let overall := if merged = [] then 0
                 else ratMean (merged.map Anomaly.confidence)
  let filtered := merged.filter
    (fun a => cfg.confidence_threshold ≤ a.confidence)
  ⟨filtered, overall, "ensemble", merged.length, filtered.length, none⟩

/-- Output of `get_model_status` (anomaly detector). -/
structure ModelStatus where
  is_trained : Bool
  last_training : Option ℕ
  models_count : ℕ
  scalers_count : ℕ
  thresholds_count : ℕ
  config : AnomalyConfig
deriving DecidableEq

/-- `get_model_status`. -/
def get_model_status (st : AnomalyDetectionModel) : ModelStatus :=
  ⟨st.is_trained, st.last_training, st.models.length, st.scalers.length,
   st.thresholds.length, st.config⟩

/-- The dict written by `save_models` (all six keys always present). -/
structure SavedBundle where
  models : List (String × FittedModel)
  scalers : List (String × ScalerFit)
  thresholds : List (String × ℚ)
  config : AnomalyConfig
  is_trained : Bool
  last_training : Option ℕ
deriving DecidableEq

/-- `save_models` (the dump itself is opaque I/O; its payload is the
returned bundle). -/
def save_models (st : AnomalyDetectionModel) : SavedBundle :=
  ⟨st.models, st.scalers, st.thresholds, st.config, st.is_trained,
   st.last_training⟩

/-- An arbitrary dict read back by `joblib.load`: each key the loader
indexes may be present or absent (absence raises `KeyError` at the
corresponding assignment). -/
structure BundleFile where
  models : Option (List (String × FittedModel))
  scalers : Option (List (String × ScalerFit))
  thresholds : Option (List (String × ℚ))
  config : Option AnomalyConfig
  is_trained : Option Bool
  last_training : Option (Option ℕ)
deriving DecidableEq

/-- A well-formed saved bundle, as a loadable file. -/
def SavedBundle.toFile (b : SavedBundle) : BundleFile :=
  ⟨some b.models, some b.scalers, some b.thresholds, some b.config,
   some b.is_trained, some b.last_training⟩

/-- A bundle file containing every key the loader reads (loading it cannot
raise `KeyError`). -/
def bundleFileComplete (f : BundleFile) : Prop :=
  f.models.isSome ∧ f.scalers.isSome ∧ f.thresholds.isSome ∧
  f.config.isSome ∧ f.is_trained.isSome ∧ f.last_training.isSome

instance (f : BundleFile) : Decidable (bundleFileComplete f) :=
  inferInstanceAs (Decidable (_ ∧ _ ∧ _ ∧ _ ∧ _ ∧ _))

/-- `load_models`: `none` for a file `joblib.load` cannot read; otherwise
the six assignments run in source order, and the first missing key raises
`KeyError`, caught by the handler which sets `is_trained = False` and
returns — assignments made before the failure stick. -/
def load_models (st : AnomalyDetectionModel) (file : Option BundleFile) :
    AnomalyDetectionModel :=
  match file with
  | none => { st with is_trained := false }
  | some d =>
    match d.models with
    | none => { st with is_trained := false }
    | some ms =>
      match d.scalers with
      | none => { st with models := ms, is_trained := false }
      | some scs =>
        match d.thresholds with
        | none => { st with models := ms, scalers := scs, is_trained := false }
        | some ths =>
          match d.config with
          | none => { st with models := ms, scalers := scs, thresholds := ths, is_trained := false }
          | some cfg =>
            match d.is_trained with
            | none => { st with models := ms, scalers := scs, thresholds := ths, config := cfg, is_trained := false }
            | some tr =>
              match d.last_training with
              | none => { st with models := ms, scalers := scs, thresholds := ths, config := cfg, is_trained := false }
              | some lt =>
                  { st with models := ms, scalers := scs, thresholds := ths, config := cfg, is_trained := tr, last_training := lt }

/-! ### Root cause analysis (`root_cause_analysis.py`) -/

/-- One root-cause hypothesis dict.  `weighted_score` is absent until
`_rank_root_causes` adds it; the embedding carries the field from the
start, initialised to `0` by every generator (matching the observable
behaviour, since the field is only ever read after ranking sets it). -/
structure Hyp where
  htype : String
  metric : String
  confidence : ℚ
  severity : String
  weighted_score : ℚ
deriving DecidableEq

/-- `severity_weights.get(cause.get('severity', 'medium'), 2.0)`:
high = 3, medium = 2, low = 1, anything else defaults to 2. -/
def severity_weight (s : String) : ℚ :=
  if s = "high" then 3 else if s = "medium" then 2
  else if s = "low" then 1 else 2

/-- The in-place `cause['weighted_score'] = confidence * severity_weight`
update of `_rank_root_causes`. -/
def setWeightedScore (h : Hyp) : Hyp :=
  { h with weighted_score := h.confidence * severity_weight h.severity }

/-- Insert an element into a descending-by-`weighted_score` list, before
the first strictly smaller score (stable). -/
def insertByScore (x : Hyp) : List Hyp → List Hyp
  | [] => [x]
  | y :: ys =>
      if y.weighted_score ≤ x.weighted_score then x :: y :: ys
      else y :: insertByScore x ys

/-- Stable descending sort by `weighted_score`.  Python's
`sorted(..., key=weighted_score, reverse=True)` is the stable descending
sort, which is uniquely determined, so this insertion sort computes the
same list. -/
def sortByScoreDesc : List Hyp → List Hyp
  | [] => []
  | x :: xs => insertByScore x (sortByScoreDesc xs)

/-- `_rank_root_causes`: set each hypothesis's `weighted_score`, then sort
descending by it. -/
def rank_root_causes (root_causes : List Hyp) : List Hyp :=
  sortByScoreDesc (root_causes.map setWeightedScore)

/-- `config['max_root_causes']` default. -/
def rca_max_root_causes : ℕ := 5

/-- The result assembly of `analyze_root_cause` (lines 322–338): rank, then
return the top-K slice together with `np.mean` of the confidences of *all*
ranked causes. -/
def analyze_root_cause_report (root_causes : List Hyp) : List Hyp × ℚ :=
  let ranked := rank_root_causes root_causes
  (ranked.take rca_max_root_causes, ratMean (ranked.map Hyp.confidence))

/-- The `dependency_bottleneck` generation step of
`_generate_root_cause_hypotheses` (lines 597–607): it walks
`central_metrics['by_degree'][:3]` — the top-3 entries of the
degree-centrality ranking — and emits a hypothesis for each entry whose
centrality exceeds `0.8`, with confidence `min(0.8, centrality)` and
severity `high`. -/
def generate_dependency_hypotheses (by_degree : List (String × ℚ)) :
    List Hyp :=
  (by_degree.take 3).filterMap (fun mc =>
    if (4 : ℚ) / 5 < mc.2 then
      some ⟨"dependency_bottleneck", mc.1, min ((4 : ℚ) / 5) mc.2, "high", 0⟩
    else none)

/-! ### Predictive scaling (`predictive_scaling.py`) -/

/-- `config['scaling_thresholds']` (defaults from the source). -/
structure ScalingThresholds where
  cpu_high : ℚ := 80
  cpu_low : ℚ := 20
  memory_high : ℚ := 85
  memory_low : ℚ := 25
  response_time_high : ℚ := 1000
  response_time_low : ℚ := 100
  throughput_low : ℚ := 100
deriving DecidableEq

/-- The default scaling thresholds. -/
def defaultScalingThresholds : ScalingThresholds := {}

/-- One scaling recommendation dict (the `reasoning` strings, pure
human-readable text, are omitted). -/
structure ScalingRec where
  target : String
  hour : ℕ
  predicted_value : ℚ
  threshold : Option ℚ
  action : Option String
  priority : String
deriving DecidableEq

/-- The per-forecast-point body of `_generate_scaling_recommendations`:
build the base record, apply the per-target threshold branches, and emit
the record iff an action was set. -/
def recFor (th : ScalingThresholds) (target : String) (hour : ℕ) (p : ℚ) :
    Option ScalingRec :=
  let base : ScalingRec := ⟨target, hour, p, none, none, "low"⟩
  let r :=
    if target = "cpu_usage" then
      if th.cpu_high < p then
        { base with action := some "scale_up", priority := "high", threshold := some th.cpu_high }
      else if p < th.cpu_low then
        { base with action := some "scale_down", priority := "medium", threshold := some th.cpu_low }
      else base
    else if target = "memory_usage" then
      if th.memory_high < p then
        { base with action := some "scale_up", priority := "high", threshold := some th.memory_high }
      else if p < th.memory_low then
        { base with action := some "scale_down", priority := "medium", threshold := some th.memory_low }
      else base
    else if target = "response_time" then
      if th.response_time_high < p then
        { base with action := some "scale_up", priority := "high", threshold := some th.response_time_high }
      else if p < th.response_time_low then
        { base with action := some "scale_down", priority := "low", threshold := some th.response_time_low }
      else base
    else if target = "throughput" then
      if p < th.throughput_low then
        { base with action := some "scale_up", priority := "medium", threshold := some th.throughput_low }
      else base
    else base
  if r.action.isSome then some r else none

/-- `_generate_scaling_recommendations`: loop over
`enumerate(predictions[:horizon])` with `hour = i + 1`, collecting the
recommendations whose action was set. -/
def generate_scaling_recommendations (th : ScalingThresholds)
    (target : String) (predictions : List ℚ) (horizon : ℕ) :
    List ScalingRec :=
  ((predictions.take horizon).enum).filterMap
    (fun ip => recFor th target (ip.1 + 1) ip.2)

/-- A fitted multi-column `StandardScaler` (`mean_` and `scale_` per
feature column; zero standard deviations replaced by 1 as sklearn does). -/
structure MScaler where
  means : List ℚ
  scales : List ℚ
deriving DecidableEq

/-- Column `j` of a row-major matrix. -/
def matCol (rows : List (List ℚ)) (j : ℕ) : List ℚ :=
  rows.map (fun r => r.getD j 0)

/-- `StandardScaler().fit(rows)` over a rectangular feature matrix. -/
def fitMScaler (rows : List (List ℚ)) : MScaler :=
  let n := (rows.headD []).length
  ⟨(List.range n).map (fun j => ratMean (matCol rows j)),
   (List.range n).map (fun j =>
     let s := popStd (matCol rows j)
     if s = 0 then 1 else s)⟩

/-- `scaler.transform(rows)`. -/
def applyMScaler (sc : MScaler) (rows : List (List ℚ)) : List (List ℚ) :=
  rows.map (fun r =>
    r.enum.map (fun jx => (jx.2 - sc.means.getD jx.1 0) / sc.scales.getD jx.1 1))

/-- One row of the feature table produced by `prepare_features`: the
originating timestamp together with the engineered feature vector (the
timestamp column itself is excluded from the features).  `prepare_features`
sorts by timestamp and `dropna` preserves order, so the table rows are
ascending in `ts`. -/
structure FeatRow where
  ts : ℚ
  feats : List ℚ
deriving DecidableEq

/-- sklearn's test-set size: `n_test = ceil(n * test_size)`. -/
def sklearn_n_test (n : ℕ) (test_size : ℚ) : ℕ :=
  (Int.ceil ((n : ℚ) * test_size)).toNat

/-- sklearn `train_test_split` with its default `shuffle=True`: draw a
permutation of the row indices from the seeded RNG (the permutation is the
opaque RNG output, taken here as a parameter), take the first `n_test`
permuted indices as the test set and the remaining indices as the training
set.  Returns `(train, test)`. -/
def shuffleSplit {α : Type} (perm : List ℕ) (test_size : ℚ)
    (rows : List α) : List α × List α :=
  let nTest := sklearn_n_test rows.length test_size
  ((perm.drop nTest).filterMap (fun i => rows.get? i),
   (perm.take nTest).filterMap (fun i => rows.get? i))

/-- `config['test_size']` default. -/
def pred_test_size : ℚ := 1 / 5

/-- The time-ordering property the specification asserts of the split:
every training row's timestamp is at most every test row's timestamp. -/
def timeOrderedSplit (rows : List FeatRow) (perm : List ℕ) : Prop :=
  ∀ r ∈ (shuffleSplit perm pred_test_size rows).1,
    ∀ s ∈ (shuffleSplit perm pred_test_size rows).2, r.ts ≤ s.ts

instance (rows : List FeatRow) (perm : List ℕ) :
    Decidable (timeOrderedSplit rows perm) :=
  inferInstanceAs (Decidable (∀ r ∈ (shuffleSplit perm pred_test_size rows).1,
    ∀ s ∈ (shuffleSplit perm pred_test_size rows).2, r.ts ≤ s.ts))

/-- The split-and-scale stage of predictive `train_models` (lines
152–163): split the feature table, fit a single `StandardScaler` on the
training partition, scale both partitions with it, and store it under
`scalers['feature_scaler']`.  Returns
`((X_train, X_test), X_train_scaled, X_test_scaled, updated scalers)`. -/
def pred_train_split_stage (scalers : List (String × MScaler))
    (rows : List FeatRow) (perm : List ℕ) :
    (List FeatRow × List FeatRow) × List (List ℚ) × List (List ℚ) ×
      List (String × MScaler) :=
  let tr := (shuffleSplit perm pred_test_size rows).1
  let te := (shuffleSplit perm pred_test_size rows).2
  let scaler := fitMScaler (tr.map FeatRow.feats)
  ((tr, te), applyMScaler scaler (tr.map FeatRow.feats),
   applyMScaler scaler (te.map FeatRow.feats),
   insertA "feature_scaler" scaler scalers)

/-- The feature-scaling step of `predict_scaling_needs` (lines 279–282):
apply the stored `feature_scaler` to the prepared prediction features
without refitting; if no scaler is stored, use the raw features. -/
def scale_for_inference (scalers : List (String × MScaler))
    (X_pred : List (List ℚ)) : List (List ℚ) :=
  match lookupA scalers "feature_scaler" with
  | some sc => applyMScaler sc X_pred
  | none => X_pred

/-! ## General lemmas -/

theorem lookupA_insertA_self {α : Type} (k : String) (v : α)
    (m : List (String × α)) : lookupA (insertA k v m) k = some v := by
  induction m with
  | nil => simp [insertA, lookupA]
  | cons hd tl ih =>
      obtain ⟨k2, v2⟩ := hd
      by_cases h : k2 = k <;> simp [insertA, lookupA, h, ih]

theorem lookupA_insertA_other {α : Type} (k k2 : String) (v : α)
    (m : List (String × α)) (hne : k ≠ k2) :
    lookupA (insertA k v m) k2 = lookupA m k2 := by
  induction m with
  | nil => simp [insertA, lookupA, hne]
  | cons hd tl ih =>
      obtain ⟨k3, v3⟩ := hd
      by_cases h : k3 = k
      · subst h
        simp [insertA, lookupA, hne]
      · by_cases h2 : k3 = k2 <;>
          simp [insertA, lookupA, h, h2, Ne.symm hne, ih]

theorem lookupA_insertA_isSome {α : Type} (k k2 : String) (v : α)
    (m : List (String × α)) (h : lookupA m k2 ≠ none) :
    lookupA (insertA k v m) k2 ≠ none := by
  by_cases hk : k = k2
  · subst hk
    simp [lookupA_insertA_self]
  · rwa [lookupA_insertA_other k k2 v m hk]

theorem string_append_cancel (s a b : String) (h : s ++ a = s ++ b) :
    a = b := by
  have h2 : (s ++ a).data = (s ++ b).data := congrArg String.data h
  cases a
  cases b
  simp only [String.data_append] at h2
  exact congrArg String.mk (List.append_cancel_left h2)

theorem iso_key_ne_db_key (a b : String) :
    "isolation_forest_" ++ a ≠ "dbscan_" ++ b := by
  intro h
  have h2 : ("isolation_forest_" ++ a).data = ("dbscan_" ++ b).data :=
    congrArg String.data h
  simp [String.data_append] at h2

theorem db_key_ne_iso_key (a b : String) :
    "dbscan_" ++ a ≠ "isolation_forest_" ++ b := by
  intro h
  exact iso_key_ne_db_key b a h.symm

/-! ## Anomaly-detector state lemmas -/

theorem preprocess_data_fst (st : AnomalyDetectionModel) (v : List ℚ) :
    (preprocess_data st v).1 =
      if iqrFilter st.config.iqr_multiplier v = [] then st
      else { st with scalers := insertA "standard" (fitScaler (iqrFilter st.config.iqr_multiplier v)) st.scalers } := by
  unfold preprocess_data
  by_cases h : iqrFilter st.config.iqr_multiplier v = [] <;> simp [h]

theorem preprocess_data_snd (st : AnomalyDetectionModel) (v : List ℚ) :
    (preprocess_data st v).2 = preprocessVals st.config v := by
  unfold preprocess_data preprocessVals
  by_cases h : iqrFilter st.config.iqr_multiplier v = [] <;> simp [h]

theorem preprocess_data_models (st : AnomalyDetectionModel) (v : List ℚ) :
    (preprocess_data st v).1.models = st.models := by
  rw [preprocess_data_fst]
  split <;> rfl

theorem preprocess_data_thresholds (st : AnomalyDetectionModel) (v : List ℚ) :
    (preprocess_data st v).1.thresholds = st.thresholds := by
  rw [preprocess_data_fst]
  split <;> rfl

theorem preprocess_data_config (st : AnomalyDetectionModel) (v : List ℚ) :
    (preprocess_data st v).1.config = st.config := by
  rw [preprocess_data_fst]
  split <;> rfl

theorem preprocess_data_is_trained (st : AnomalyDetectionModel) (v : List ℚ) :
    (preprocess_data st v).1.is_trained = st.is_trained := by
  rw [preprocess_data_fst]
  split <;> rfl

theorem preprocessVals_length_le (cfg : AnomalyConfig) (v : List ℚ) :
    (preprocessVals cfg v).length ≤ v.length := by
  have hf : (iqrFilter cfg.iqr_multiplier v).length ≤ v.length := by
    unfold iqrFilter
    exact List.length_filter_le _ _
  unfold preprocessVals
  by_cases h : iqrFilter cfg.iqr_multiplier v = []
  · simp [h]
  · simpa [h, applyScaler] using hf

theorem train_isolation_forest_models_short (st : AnomalyDetectionModel)
    (v : List ℚ) (m : String) (h : v.length < 10) :
    (train_isolation_forest st v m).models = st.models := by
  unfold train_isolation_forest
  rw [if_pos h]

theorem train_isolation_forest_models_long (st : AnomalyDetectionModel)
    (v : List ℚ) (m : String) (h : ¬ v.length < 10) :
    (train_isolation_forest st v m).models =
      insertA ("isolation_forest_" ++ m) ⟨"isolation_forest", v⟩ st.models := by
  unfold train_isolation_forest
  rw [if_neg h]

theorem train_isolation_forest_config (st : AnomalyDetectionModel)
    (v : List ℚ) (m : String) :
    (train_isolation_forest st v m).config = st.config := by
  unfold train_isolation_forest
  split <;> rfl

theorem train_dbscan_models_short (st : AnomalyDetectionModel)
    (v : List ℚ) (m : String) (h : v.length < 10) :
    (train_dbscan st v m).models = st.models := by
  unfold train_dbscan
  rw [if_pos h]

theorem train_dbscan_models_long (st : AnomalyDetectionModel)
    (v : List ℚ) (m : String) (h : ¬ v.length < 10) :
    (train_dbscan st v m).models =
      insertA ("dbscan_" ++ m) ⟨"dbscan", v⟩ st.models := by
  unfold train_dbscan
  rw [if_neg h]

theorem train_dbscan_config (st : AnomalyDetectionModel)
    (v : List ℚ) (m : String) :
    (train_dbscan st v m).config = st.config := by
  unfold train_dbscan
  split <;> rfl

theorem calculate_statistical_thresholds_models (st : AnomalyDetectionModel)
    (v : List ℚ) (m : String) :
    (calculate_statistical_thresholds st v m).models = st.models := by
  unfold calculate_statistical_thresholds
  split <;> rfl

theorem calculate_statistical_thresholds_config (st : AnomalyDetectionModel)
    (v : List ℚ) (m : String) :
    (calculate_statistical_thresholds st v m).config = st.config := by
  unfold calculate_statistical_thresholds
  split <;> rfl

theorem train_metric_step_config (st : AnomalyDetectionModel)
    (p : String × List ℚ) :
    (train_metric_step st p).config = st.config := by
  unfold train_metric_step
  split
  · rw [calculate_statistical_thresholds_config, train_dbscan_config,
        train_isolation_forest_config, preprocess_data_config]
  · rfl

theorem train_metric_step_models_short (st : AnomalyDetectionModel)
    (p : String × List ℚ) (h : p.2.length < 10) :
    (train_metric_step st p).models = st.models := by
  have hlen : (preprocess_data st p.2).2.length < 10 := by
    rw [preprocess_data_snd]
    exact lt_of_le_of_lt (preprocessVals_length_le _ _) h
  unfold train_metric_step
  split
  · rw [calculate_statistical_thresholds_models, train_dbscan_models_short _ _ _ hlen,
        train_isolation_forest_models_short _ _ _ hlen, preprocess_data_models]
  · rfl

theorem train_metric_step_lookup_other_iso (st : AnomalyDetectionModel)
    (p : String × List ℚ) (m : String) (hne : p.1 ≠ m) :
    lookupA (train_metric_step st p).models ("isolation_forest_" ++ m) =
      lookupA st.models ("isolation_forest_" ++ m) := by
  unfold train_metric_step
  split
  · rw [calculate_statistical_thresholds_models]
    by_cases h10 : (preprocess_data st p.2).2.length < 10
    · rw [train_dbscan_models_short _ _ _ h10,
          train_isolation_forest_models_short _ _ _ h10, preprocess_data_models]
    · rw [train_dbscan_models_long _ _ _ h10,
          train_isolation_forest_models_long _ _ _ h10,
          lookupA_insertA_other _ _ _ _ (db_key_ne_iso_key p.1 m),
          lookupA_insertA_other _ _ _ _
            (fun hk => hne (string_append_cancel _ _ _ hk)),
          preprocess_data_models]
  · rfl

theorem train_metric_step_lookup_other_db (st : AnomalyDetectionModel)
    (p : String × List ℚ) (m : String) (hne : p.1 ≠ m) :
    lookupA (train_metric_step st p).models ("dbscan_" ++ m) =
      lookupA st.models ("dbscan_" ++ m) := by
  unfold train_metric_step
  split
  · rw [calculate_statistical_thresholds_models]
    by_cases h10 : (preprocess_data st p.2).2.length < 10
    · rw [train_dbscan_models_short _ _ _ h10,
          train_isolation_forest_models_short _ _ _ h10, preprocess_data_models]
    · rw [train_dbscan_models_long _ _ _ h10,
          train_isolation_forest_models_long _ _ _ h10,
          lookupA_insertA_other _ _ _ _
            (fun hk => hne (string_append_cancel _ _ _ hk)),
          lookupA_insertA_other _ _ _ _ (iso_key_ne_db_key p.1 m),
          preprocess_data_models]
  · rfl

theorem train_metric_step_lookup_isSome (st : AnomalyDetectionModel)
    (p : String × List ℚ) (k : String)
    (h : lookupA st.models k ≠ none) :
    lookupA (train_metric_step st p).models k ≠ none := by
  unfold train_metric_step
  split
  · rw [calculate_statistical_thresholds_models]
    by_cases h10 : (preprocess_data st p.2).2.length < 10
    · rw [train_dbscan_models_short _ _ _ h10,
          train_isolation_forest_models_short _ _ _ h10, preprocess_data_models]
      exact h
    · rw [train_dbscan_models_long _ _ _ h10,
          train_isolation_forest_models_long _ _ _ h10]
      apply lookupA_insertA_isSome
      apply lookupA_insertA_isSome
      rw [preprocess_data_models]
      exact h
  · exact h

theorem train_metric_step_self_long (st : AnomalyDetectionModel)
    (p : String × List ℚ)
    (h10 : 10 ≤ (preprocessVals st.config p.2).length) :
    lookupA (train_metric_step st p).models ("isolation_forest_" ++ p.1) ≠ none ∧
    lookupA (train_metric_step st p).models ("dbscan_" ++ p.1) ≠ none := by
  have hvpos : p.2.length > 0 := by
    have := preprocessVals_length_le st.config p.2
    omega
  have hlen : ¬ (preprocess_data st p.2).2.length < 10 := by
    rw [preprocess_data_snd]
    omega
  unfold train_metric_step
  rw [if_pos hvpos]
  rw [calculate_statistical_thresholds_models,
      train_dbscan_models_long _ _ _ hlen,
      train_isolation_forest_models_long _ _ _ hlen]
  constructor
  · rw [lookupA_insertA_other _ _ _ _ (db_key_ne_iso_key p.1 p.1),
        lookupA_insertA_self]
    simp
  · rw [lookupA_insertA_self]
    simp

theorem foldl_train_config (l : List (String × List ℚ))
    (st : AnomalyDetectionModel) :
    (l.foldl train_metric_step st).config = st.config := by
  induction l generalizing st with
  | nil => rfl
  | cons p rest ih => rw [List.foldl_cons, ih, train_metric_step_config]

theorem foldl_train_lookup_none (l : List (String × List ℚ))
    (st : AnomalyDetectionModel) (m : String)
    (hshort : ∀ v, (m, v) ∈ l → v.length < 10)
    (hiso : lookupA st.models ("isolation_forest_" ++ m) = none)
    (hdb : lookupA st.models ("dbscan_" ++ m) = none) :
    lookupA (l.foldl train_metric_step st).models ("isolation_forest_" ++ m) = none ∧
    lookupA (l.foldl train_metric_step st).models ("dbscan_" ++ m) = none := by
  induction l generalizing st with
  | nil => exact ⟨hiso, hdb⟩
  | cons p rest ih =>
      obtain ⟨p1, p2⟩ := p
      rw [List.foldl_cons]
      apply ih
      · intro v hv
        exact hshort v (List.mem_cons_of_mem _ hv)
      · by_cases hm : p1 = m
        · have hs : p2.length < 10 := by
            apply hshort
            rw [← hm]
            exact List.mem_cons_self _ _
          rw [train_metric_step_models_short _ _ hs]
          exact hiso
        · rw [train_metric_step_lookup_other_iso _ _ _ hm]
          exact hiso
      · by_cases hm : p1 = m
        · have hs : p2.length < 10 := by
            apply hshort
            rw [← hm]
            exact List.mem_cons_self _ _
          rw [train_metric_step_models_short _ _ hs]
          exact hdb
        · rw [train_metric_step_lookup_other_db _ _ _ hm]
          exact hdb

theorem foldl_train_models_all_short (l : List (String × List ℚ))
    (st : AnomalyDetectionModel)
    (hshort : ∀ p ∈ l, (p : String × List ℚ).2.length < 10) :
    (l.foldl train_metric_step st).models = st.models := by
  induction l generalizing st with
  | nil => rfl
  | cons p rest ih =>
      rw [List.foldl_cons, ih _ (fun q hq => hshort q (List.mem_cons_of_mem _ hq)),
          train_metric_step_models_short _ _ (hshort p (List.mem_cons_self _ _))]

theorem foldl_train_lookup_isSome (l : List (String × List ℚ))
    (st : AnomalyDetectionModel) (k : String)
    (h : lookupA st.models k ≠ none) :
    lookupA (l.foldl train_metric_step st).models k ≠ none := by
  induction l generalizing st with
  | nil => exact h
  | cons p rest ih =>
      rw [List.foldl_cons]
      exact ih _ (train_metric_step_lookup_isSome _ _ _ h)

theorem foldl_train_mem_long (l : List (String × List ℚ))
    (st : AnomalyDetectionModel) (m2 : String) (v2 : List ℚ)
    (hmem : (m2, v2) ∈ l)
    (hlong : 10 ≤ (preprocessVals st.config v2).length) :
    lookupA (l.foldl train_metric_step st).models ("isolation_forest_" ++ m2) ≠ none ∧
    lookupA (l.foldl train_metric_step st).models ("dbscan_" ++ m2) ≠ none := by
  induction l generalizing st with
  | nil => cases hmem
  | cons p rest ih =>
      rw [List.foldl_cons]
      rcases List.mem_cons.mp hmem with heq | hmem2
      · subst heq
        have hstep := train_metric_step_self_long st (m2, v2) hlong
        exact ⟨foldl_train_lookup_isSome _ _ _ hstep.1,
               foldl_train_lookup_isSome _ _ _ hstep.2⟩
      · exact ih _ hmem2 (by rw [train_metric_step_config]; exact hlong)

theorem anomaly_train_models_models (st : AnomalyDetectionModel)
    (tm : List (String × List ℚ)) (now : ℕ) :
    (anomaly_train_models st tm now).models =
      (tm.foldl train_metric_step st).models := rfl

theorem anomaly_train_models_is_trained (st : AnomalyDetectionModel)
    (tm : List (String × List ℚ)) (now : ℕ) :
    (anomaly_train_models st tm now).is_trained = true := rfl

theorem anomaly_train_models_config (st : AnomalyDetectionModel)
    (tm : List (String × List ℚ)) (now : ℕ) :
    (anomaly_train_models st tm now).config = st.config :=
  foldl_train_config tm st

theorem detect_anomalies_no_models
    (isoP dbP : FittedModel → List ℚ → List Bool)
    (st : AnomalyDetectionModel) (v : List ℚ) (m : String)
    (htr : st.is_trained = true)
    (hiso : lookupA st.models ("isolation_forest_" ++ m) = none)
    (hdb : lookupA st.models ("dbscan_" ++ m) = none) :
    detect_anomalies isoP dbP st v m =
      ((preprocess_data st v).1, statOnlyResult st.config st.thresholds v m) := by
  have h1 : lookupA (preprocess_data st v).1.models ("isolation_forest_" ++ m) = none := by
    rw [preprocess_data_models]
    exact hiso
  have h2 : lookupA (preprocess_data st v).1.models ("dbscan_" ++ m) = none := by
    rw [preprocess_data_models]
    exact hdb
  simp only [detect_anomalies, statOnlyResult, htr, h1, h2,
    preprocess_data_config, preprocess_data_thresholds, Bool.true_eq_false,
    if_false, dedupAppend, List.foldl_nil]

theorem statOnlyResult_ne_notTrained (cfg : AnomalyConfig)
    (th : List (String × ℚ)) (v : List ℚ) (m : String) :
    statOnlyResult cfg th v m ≠ notTrainedResult := by
  intro h
  have h2 := congrArg DetectResult.method h
  simp [statOnlyResult, notTrainedResult] at h2

theorem detect_anomalies_fst_trained
    (isoP dbP : FittedModel → List ℚ → List Bool)
    (st : AnomalyDetectionModel) (v : List ℚ) (m : String)
    (htr : st.is_trained = true) :
    (detect_anomalies isoP dbP st v m).1 = (preprocess_data st v).1 := by
  unfold detect_anomalies
  rw [htr]
  simp

/-! ## Claim C1 -/

/-- C1 (amended): the "not trained" annotated empty result is returned
exactly when the component-wide `is_trained` flag is false; once the
component is trained (on any metrics), a `detect_anomalies` call for a
metric with no stored per-metric model does not return the "not trained"
result — it runs the statistical path and returns an `ensemble` result. -/
theorem c1_not_trained_gate
    (isoP dbP : FittedModel → List ℚ → List Bool)
    (st : AnomalyDetectionModel) (v : List ℚ) (m : String) :
    (st.is_trained = false → detect_anomalies isoP dbP st v m = (st, notTrainedResult)) ∧
    (st.is_trained = true →
      lookupA st.models ("isolation_forest_" ++ m) = none →
      lookupA st.models ("dbscan_" ++ m) = none →
      (detect_anomalies isoP dbP st v m).2 = statOnlyResult st.config st.thresholds v m ∧
      (detect_anomalies isoP dbP st v m).2 ≠ notTrainedResult) := by
  constructor
  · intro h
    unfold detect_anomalies
    rw [h]
    simp
  · intro htr hiso hdb
    rw [detect_anomalies_no_models isoP dbP st v m htr hiso hdb]
    exact ⟨rfl, statOnlyResult_ne_notTrained _ _ _ _⟩

/-- C1 witness: a detector trained on metric `a` only, queried for the
untrained metric `b`, returns the statistical-path ensemble result. -/
theorem c1_witness :
    (detect_anomalies (fun _ _ => []) (fun _ _ => [])
        (anomaly_train_models initAnomalyModel [("a", [1, 1, 3, 3])] 0)
        [1, 1, 1, 1, 3, 3, 3, 3] "b").2 =
      statOnlyResult
        (anomaly_train_models initAnomalyModel [("a", [1, 1, 3, 3])] 0).config
        (anomaly_train_models initAnomalyModel [("a", [1, 1, 3, 3])] 0).thresholds
        [1, 1, 1, 1, 3, 3, 3, 3] "b" :=
  ((c1_not_trained_gate (fun _ _ => []) (fun _ _ => [])
      (anomaly_train_models initAnomalyModel [("a", [1, 1, 3, 3])] 0)
      [1, 1, 1, 1, 3, 3, 3, 3] "b").2
    (by with_unfolding_all decide)
    (by with_unfolding_all decide)
    (by with_unfolding_all decide)).1

/-- C1 counterexample: the detector trained on `a` only, queried on the
never-trained metric `b`, does NOT return the empty "not trained"
annotated result the claim demands: the result is an `ensemble` result
with no error annotation. -/
theorem c1_counterexample :
    lookupA (anomaly_train_models initAnomalyModel [("a", [1, 1, 3, 3])] 0).models
        ("isolation_forest_" ++ "b") = none ∧
    lookupA (anomaly_train_models initAnomalyModel [("a", [1, 1, 3, 3])] 0).models
        ("dbscan_" ++ "b") = none ∧
    (detect_anomalies (fun _ _ => []) (fun _ _ => [])
        (anomaly_train_models initAnomalyModel [("a", [1, 1, 3, 3])] 0)
        [1, 1, 1, 1, 3, 3, 3, 3] "b").2 ≠ notTrainedResult ∧
    (detect_anomalies (fun _ _ => []) (fun _ _ => [])
        (anomaly_train_models initAnomalyModel [("a", [1, 1, 3, 3])] 0)
        [1, 1, 1, 1, 3, 3, 3, 3] "b").2.error = none := by
  with_unfolding_all decide

/-! ## Claim C3 -/

/-- C3 (amended): on a trained detector, `detect_anomalies` leaves the
`models` and `thresholds` mappings unchanged, but it does NOT leave the
`scalers` mapping unchanged: via `preprocess_data` it overwrites the
`standard` scaler entry with a scaler freshly fitted on the (filtered)
inference batch, whenever that filtered batch is nonempty. -/
theorem c3_detect_frame
    (isoP dbP : FittedModel → List ℚ → List Bool)
    (st : AnomalyDetectionModel) (v : List ℚ) (m : String)
    (htr : st.is_trained = true) :
    (detect_anomalies isoP dbP st v m).1.models = st.models ∧
    (detect_anomalies isoP dbP st v m).1.thresholds = st.thresholds ∧
    (detect_anomalies isoP dbP st v m).1.scalers =
      (if iqrFilter st.config.iqr_multiplier v = [] then st.scalers
       else insertA "standard" (fitScaler (iqrFilter st.config.iqr_multiplier v)) st.scalers) := by
  refine ⟨?_, ?_, ?_⟩
  · rw [detect_anomalies_fst_trained isoP dbP st v m htr, preprocess_data_models]
  · rw [detect_anomalies_fst_trained isoP dbP st v m htr, preprocess_data_thresholds]
  · rw [detect_anomalies_fst_trained isoP dbP st v m htr, preprocess_data_fst]
    split <;> rfl

/-- C3 witness: the frame property of `c3_detect_frame` evaluated on a
concretely trained detector and a concrete inference batch. -/
theorem c3_witness :
    (detect_anomalies (fun _ _ => []) (fun _ _ => [])
        (anomaly_train_models initAnomalyModel [("a", [1, 1, 3, 3])] 0)
        [0, 0, 2, 2] "a").1.models =
      (anomaly_train_models initAnomalyModel [("a", [1, 1, 3, 3])] 0).models :=
  (c3_detect_frame (fun _ _ => []) (fun _ _ => [])
      (anomaly_train_models initAnomalyModel [("a", [1, 1, 3, 3])] 0)
      [0, 0, 2, 2] "a" (by with_unfolding_all decide)).1

/-- C3 counterexample: a trained detector's `scalers` mapping is changed
by a `detect_anomalies` call — the `standard` entry is refitted on the
inference batch — refuting the claim that inference leaves the whole
bundle (models, scalers, thresholds) exactly as before. -/
theorem c3_counterexample :
    (anomaly_train_models initAnomalyModel [("a", [1, 1, 3, 3])] 0).is_trained = true ∧
    (detect_anomalies (fun _ _ => []) (fun _ _ => [])
        (anomaly_train_models initAnomalyModel [("a", [1, 1, 3, 3])] 0)
        [0, 0, 2, 2] "a").1.scalers ≠
      (anomaly_train_models initAnomalyModel [("a", [1, 1, 3, 3])] 0).scalers := by
  with_unfolding_all decide

/-! ## Claim C5 -/

/-- C5: in an anomaly-detector training call, every metric all of whose
supplied series are shorter than 10 rows ends up with no stored model
under its keys (it is untrained as far as the bundle's per-metric status
is concerned), the component still completes training, and any metric of
the same call whose preprocessed series has at least 10 rows gets both of
its per-metric models stored. -/
theorem c5_short_series_skipped (st : AnomalyDetectionModel)
    (tm : List (String × List ℚ)) (now : ℕ) (m : String)
    (hshort : ∀ p ∈ tm, (p : String × List ℚ).1 = m → p.2.length < 10)
    (hiso0 : lookupA st.models ("isolation_forest_" ++ m) = none)
    (hdb0 : lookupA st.models ("dbscan_" ++ m) = none) :
    lookupA (anomaly_train_models st tm now).models ("isolation_forest_" ++ m) = none ∧
    lookupA (anomaly_train_models st tm now).models ("dbscan_" ++ m) = none ∧
    (anomaly_train_models st tm now).is_trained = true ∧
    (∀ m2 v2, (m2, v2) ∈ tm → 10 ≤ (preprocessVals st.config v2).length →
      lookupA (anomaly_train_models st tm now).models ("isolation_forest_" ++ m2) ≠ none ∧
      lookupA (anomaly_train_models st tm now).models ("dbscan_" ++ m2) ≠ none) := by
  have hnone := foldl_train_lookup_none tm st m
    (fun v hv => hshort (m, v) hv rfl) hiso0 hdb0
  refine ⟨?_, ?_, rfl, ?_⟩
  · rw [anomaly_train_models_models]
    exact hnone.1
  · rw [anomaly_train_models_models]
    exact hnone.2
  · intro m2 v2 hmem hlong
    have hl := foldl_train_mem_long tm st m2 v2 hmem hlong
    rw [anomaly_train_models_models]
    exact hl

/-- C5 witness: training on a 4-row series for `a` and a 12-row series
for `b` leaves `a` without models while `b` gets both models. -/
theorem c5_witness :
    lookupA (anomaly_train_models initAnomalyModel
        [("a", [1, 1, 3, 3]), ("b", [1, 3, 1, 3, 1, 3, 1, 3, 1, 3, 1, 3])] 0).models
      ("isolation_forest_" ++ "a") = none ∧
    lookupA (anomaly_train_models initAnomalyModel
        [("a", [1, 1, 3, 3]), ("b", [1, 3, 1, 3, 1, 3, 1, 3, 1, 3, 1, 3])] 0).models
      ("dbscan_" ++ "a") = none ∧
    lookupA (anomaly_train_models initAnomalyModel
        [("a", [1, 1, 3, 3]), ("b", [1, 3, 1, 3, 1, 3, 1, 3, 1, 3, 1, 3])] 0).models
      ("isolation_forest_" ++ "b") ≠ none ∧
    lookupA (anomaly_train_models initAnomalyModel
        [("a", [1, 1, 3, 3]), ("b", [1, 3, 1, 3, 1, 3, 1, 3, 1, 3, 1, 3])] 0).models
      ("dbscan_" ++ "b") ≠ none := by
  have happ := c5_short_series_skipped initAnomalyModel
    [("a", [1, 1, 3, 3]), ("b", [1, 3, 1, 3, 1, 3, 1, 3, 1, 3, 1, 3])] 0 "a"
    (by with_unfolding_all decide) rfl rfl
  have hb := happ.2.2.2 "b" [1, 3, 1, 3, 1, 3, 1, 3, 1, 3, 1, 3]
    (by with_unfolding_all decide) (by with_unfolding_all decide)
  exact ⟨happ.1, happ.2.1, hb.1, hb.2⟩

/-! ## Claim C8 -/

/-- C8 (amended): a `load_models` call never raises to the caller: a file
that cannot be read leaves the whole prior state intact except the trained
flag, which becomes false; a readable but incomplete bundle dict also
leaves the component reporting untrained, but the assignments made before
the missing key stick (so prior in-memory state is NOT always intact); a
complete bundle replaces the whole state. -/
theorem c8_load_failure (st : AnomalyDetectionModel) (file : Option BundleFile) :
    (file = none → load_models st file = { st with is_trained := false }) ∧
    (∀ d, file = some d → ¬ bundleFileComplete d →
      (load_models st file).is_trained = false) ∧
    (∀ b : SavedBundle, load_models st (some b.toFile) =
      ⟨b.config, b.models, b.scalers, b.thresholds, b.is_trained, b.last_training⟩) := by
  refine ⟨?_, ?_, ?_⟩
  · intro h
    subst h
    rfl
  · intro d hf hnc
    subst hf
    obtain ⟨om, os, ot, oc, oi, ol⟩ := d
    cases om <;> cases os <;> cases ot <;> cases oc <;> cases oi <;> cases ol <;>
      simp_all [bundleFileComplete, load_models]
  · intro b
    rfl

/-- C8 witness: loading an unreadable file on a concretely trained
detector leaves the state intact apart from the trained flag. -/
theorem c8_witness :
    load_models (anomaly_train_models initAnomalyModel [("a", [1, 1, 3, 3])] 0) none =
      { anomaly_train_models initAnomalyModel [("a", [1, 1, 3, 3])] 0 with is_trained := false } :=
  (c8_load_failure (anomaly_train_models initAnomalyModel [("a", [1, 1, 3, 3])] 0) none).1 rfl

/-- C8 counterexample: a readable bundle dict that lacks the `thresholds`
key makes the load fail (component reports untrained, nothing raised) but
overwrites the `models` and `scalers` mappings assigned before the missing
key — the prior in-memory state is not left intact. -/
theorem c8_counterexample :
    ¬ bundleFileComplete ⟨some [], some [], none, none, none, none⟩ ∧
    (load_models (anomaly_train_models initAnomalyModel [("a", [1, 1, 3, 3])] 0)
        (some ⟨some [], some [], none, none, none, none⟩)).is_trained = false ∧
    (load_models (anomaly_train_models initAnomalyModel [("a", [1, 1, 3, 3])] 0)
        (some ⟨some [], some [], none, none, none, none⟩)).scalers ≠
      (anomaly_train_models initAnomalyModel [("a", [1, 1, 3, 3])] 0).scalers := by
  with_unfolding_all decide

/-! ## Claim C9 -/

/-- C9: `save_models` followed by `load_models` on a fresh instance
reproduces the trained flag, models count and last-training timestamp of
`get_model_status`. -/
theorem c9_save_load_roundtrip (st : AnomalyDetectionModel)
    (_htr : st.is_trained = true) :
    (get_model_status (load_models initAnomalyModel
        (some (SavedBundle.toFile (save_models st))))).is_trained =
      (get_model_status st).is_trained ∧
    (get_model_status (load_models initAnomalyModel
        (some (SavedBundle.toFile (save_models st))))).models_count =
      (get_model_status st).models_count ∧
    (get_model_status (load_models initAnomalyModel
        (some (SavedBundle.toFile (save_models st))))).last_training =
      (get_model_status st).last_training := by
  exact ⟨rfl, rfl, rfl⟩

/-- C9 witness: the round trip on a concretely trained detector. -/
theorem c9_witness :
    (get_model_status (load_models initAnomalyModel
        (some (SavedBundle.toFile (save_models
          (anomaly_train_models initAnomalyModel [("a", [1, 1, 3, 3])] 0)))))).is_trained =
      (get_model_status (anomaly_train_models initAnomalyModel [("a", [1, 1, 3, 3])] 0)).is_trained ∧
    (get_model_status (load_models initAnomalyModel
        (some (SavedBundle.toFile (save_models
          (anomaly_train_models initAnomalyModel [("a", [1, 1, 3, 3])] 0)))))).models_count =
      (get_model_status (anomaly_train_models initAnomalyModel [("a", [1, 1, 3, 3])] 0)).models_count ∧
    (get_model_status (load_models initAnomalyModel
        (some (SavedBundle.toFile (save_models
          (anomaly_train_models initAnomalyModel [("a", [1, 1, 3, 3])] 0)))))).last_training =
      (get_model_status (anomaly_train_models initAnomalyModel [("a", [1, 1, 3, 3])] 0)).last_training :=
  c9_save_load_roundtrip (anomaly_train_models initAnomalyModel [("a", [1, 1, 3, 3])] 0)
    (by with_unfolding_all decide)

/-! ## Claim C10 -/

/-- C10 (amended): training on a non-empty map whose series are all
shorter than 10 rows sets the trained flag and stores no per-metric model,
so detection runs the statistical path only — but against the statistical
thresholds computed during training (which are stored even for short
series), not against the configuration defaults. -/
theorem c10_trained_flag_statistical_path
    (isoP dbP : FittedModel → List ℚ → List Bool)
    (tm : List (String × List ℚ)) (now : ℕ)
    (_hne : tm ≠ [])
    (hshort : ∀ p ∈ tm, (p : String × List ℚ).2.length < 10) :
    (anomaly_train_models initAnomalyModel tm now).is_trained = true ∧
    (anomaly_train_models initAnomalyModel tm now).models = [] ∧
    ∀ v m,
      (detect_anomalies isoP dbP (anomaly_train_models initAnomalyModel tm now) v m).2 =
        statOnlyResult (anomaly_train_models initAnomalyModel tm now).config
          (anomaly_train_models initAnomalyModel tm now).thresholds v m ∧
      (detect_anomalies isoP dbP (anomaly_train_models initAnomalyModel tm now) v m).2 ≠
        notTrainedResult := by
  have hm : (anomaly_train_models initAnomalyModel tm now).models = [] := by
    rw [anomaly_train_models_models]
    exact foldl_train_models_all_short tm initAnomalyModel hshort
  refine ⟨rfl, hm, ?_⟩
  intro v m
  have hd := detect_anomalies_no_models isoP dbP
    (anomaly_train_models initAnomalyModel tm now) v m rfl
    (by rw [hm]; rfl) (by rw [hm]; rfl)
  constructor
  · rw [hd]
  · rw [hd]
    exact statOnlyResult_ne_notTrained _ _ _ _

/-- C10 witness: training on a single 4-row series sets the trained flag,
stores no model, and detection returns the statistical-only result
against the stored thresholds. -/
theorem c10_witness :
    (anomaly_train_models initAnomalyModel [("a", [1, 1, 3, 3])] 0).is_trained = true ∧
    (anomaly_train_models initAnomalyModel [("a", [1, 1, 3, 3])] 0).models = [] ∧
    (detect_anomalies (fun _ _ => []) (fun _ _ => [])
        (anomaly_train_models initAnomalyModel [("a", [1, 1, 3, 3])] 0)
        [1, 1, 1, 1, 6] "a").2 ≠ notTrainedResult := by
  have happ := c10_trained_flag_statistical_path (fun _ _ => []) (fun _ _ => [])
    [("a", [1, 1, 3, 3])] 0 (by with_unfolding_all decide)
    (by with_unfolding_all decide)
  exact ⟨happ.1, happ.2.1, (happ.2.2 [1, 1, 1, 1, 6] "a").2⟩

/-- C10 counterexample: after training on a short (4-row) series, the
stored z-score threshold for `a` is `1`, not the default `3.0`, and the
detection result differs from the statistical path evaluated with default
thresholds — refuting the claim's "with default thresholds". -/
theorem c10_counterexample :
    [(1 : ℚ), 1, 3, 3].length < 10 ∧
    (anomaly_train_models initAnomalyModel [("a", [1, 1, 3, 3])] 0).is_trained = true ∧
    lookupA (anomaly_train_models initAnomalyModel [("a", [1, 1, 3, 3])] 0).thresholds
      "a_value_z_score" = some 1 ∧
    (detect_anomalies (fun _ _ => []) (fun _ _ => [])
        (anomaly_train_models initAnomalyModel [("a", [1, 1, 3, 3])] 0)
        [1, 1, 1, 1, 6] "a").2 ≠
      statOnlyResult (anomaly_train_models initAnomalyModel [("a", [1, 1, 3, 3])] 0).config
        [] [1, 1, 1, 1, 6] "a" := by
  with_unfolding_all decide

/-! ## Claim C4 -/

/-- C4: the scaling-recommendation band logic is strict: a forecast value
strictly above the configured high threshold yields `scale_up`, a value
equal to the high threshold yields no recommendation, a value strictly
below the low threshold yields `scale_down` — except `throughput`, which
only yields `scale_up` below its low threshold and has no `scale_down`
branch — and a value within the band yields no recommendation; the
recommendation list is exactly the per-point results over
`predictions[:horizon]`. -/
theorem c4_band_logic (th : ScalingThresholds) (hour : ℕ) (p : ℚ)
    (hcpu : th.cpu_low ≤ th.cpu_high) (hmem : th.memory_low ≤ th.memory_high)
    (hrt : th.response_time_low ≤ th.response_time_high) :
    ((recFor th "cpu_usage" hour p).bind ScalingRec.action =
       (if th.cpu_high < p then some "scale_up"
        else if p < th.cpu_low then some "scale_down" else none)) ∧
    (p = th.cpu_high → recFor th "cpu_usage" hour p = none) ∧
    ((recFor th "memory_usage" hour p).bind ScalingRec.action =
       (if th.memory_high < p then some "scale_up"
        else if p < th.memory_low then some "scale_down" else none)) ∧
    (p = th.memory_high → recFor th "memory_usage" hour p = none) ∧
    ((recFor th "response_time" hour p).bind ScalingRec.action =
       (if th.response_time_high < p then some "scale_up"
        else if p < th.response_time_low then some "scale_down" else none)) ∧
    (p = th.response_time_high → recFor th "response_time" hour p = none) ∧
    ((recFor th "throughput" hour p).bind ScalingRec.action =
       (if p < th.throughput_low then some "scale_up" else none)) ∧
    (∀ r, recFor th "throughput" hour p = some r → r.action ≠ some "scale_down") ∧
    (∀ target preds horizon,
      generate_scaling_recommendations th target preds horizon =
        ((preds.take horizon).enum).filterMap
          (fun ip => recFor th target (ip.1 + 1) ip.2)) := by
  refine ⟨?_, ?_, ?_, ?_, ?_, ?_, ?_, ?_, fun _ _ _ => rfl⟩
  · simp only [recFor]
    split_ifs <;> simp_all
  · intro he
    subst he
    have h1 : ¬ th.cpu_high < th.cpu_high := lt_irrefl _
    have h2 : ¬ th.cpu_high < th.cpu_low := not_lt.mpr hcpu
    simp [recFor, h1, h2]
  · simp only [recFor]
    split_ifs <;> simp_all
  · intro he
    subst he
    have h1 : ¬ th.memory_high < th.memory_high := lt_irrefl _
    have h2 : ¬ th.memory_high < th.memory_low := not_lt.mpr hmem
    simp [recFor, h1, h2]
  · simp only [recFor]
    split_ifs <;> simp_all
  · intro he
    subst he
    have h1 : ¬ th.response_time_high < th.response_time_high := lt_irrefl _
    have h2 : ¬ th.response_time_high < th.response_time_low := not_lt.mpr hrt
    simp [recFor, h1, h2]
  · simp only [recFor]
    split_ifs <;> simp_all
  · intro r hr
    simp only [recFor] at hr
    split_ifs at hr <;> simp_all
    rw [← hr]
    simp

/-- C4 witness: with the default thresholds, a CPU forecast equal to the
high threshold (80) yields no recommendation, while one unit above
yields `scale_up`. -/
theorem c4_witness :
    recFor defaultScalingThresholds "cpu_usage" 1 80 = none ∧
    (recFor defaultScalingThresholds "cpu_usage" 1 81).bind ScalingRec.action =
      some "scale_up" := by
  constructor
  · exact (c4_band_logic defaultScalingThresholds 1 80
      (by norm_num [defaultScalingThresholds]) (by norm_num [defaultScalingThresholds])
      (by norm_num [defaultScalingThresholds])).2.1 (by with_unfolding_all decide)
  · rw [(c4_band_logic defaultScalingThresholds 1 81
      (by norm_num [defaultScalingThresholds]) (by norm_num [defaultScalingThresholds])
      (by norm_num [defaultScalingThresholds])).1]
    with_unfolding_all decide

/-! ## Claim C6 -/

theorem insertByScore_perm (x : Hyp) (l : List Hyp) :
    (insertByScore x l).Perm (x :: l) := by
  induction l with
  | nil => exact List.Perm.refl _
  | cons y ys ih =>
      unfold insertByScore
      split
      · exact List.Perm.refl _
      · exact (ih.cons y).trans (List.Perm.swap x y ys)

theorem sortByScoreDesc_perm (l : List Hyp) :
    (sortByScoreDesc l).Perm l := by
  induction l with
  | nil => exact List.Perm.refl _
  | cons x xs ih =>
      exact (insertByScore_perm x (sortByScoreDesc xs)).trans (ih.cons x)

theorem mem_insertByScore {a x : Hyp} {l : List Hyp}
    (h : a ∈ insertByScore x l) : a = x ∨ a ∈ l :=
  List.mem_cons.mp ((insertByScore_perm x l).mem_iff.mp h)

theorem insertByScore_pairwise (x : Hyp) (l : List Hyp)
    (h : l.Pairwise (fun a b => b.weighted_score ≤ a.weighted_score)) :
    (insertByScore x l).Pairwise
      (fun a b => b.weighted_score ≤ a.weighted_score) := by
  induction l with
  | nil => simp [insertByScore]
  | cons y ys ih =>
      rw [List.pairwise_cons] at h
      unfold insertByScore
      split
      · rename_i hcond
        rw [List.pairwise_cons]
        refine ⟨?_, List.pairwise_cons.mpr h⟩
        intro z hz
        rcases List.mem_cons.mp hz with hzy | hzys
        · rw [hzy]
          exact hcond
        · exact le_trans (h.1 z hzys) hcond
      · rename_i hcond
        rw [List.pairwise_cons]
        refine ⟨?_, ih h.2⟩
        intro z hz
        rcases mem_insertByScore hz with hzx | hzys
        · rw [hzx]
          exact le_of_lt (not_le.mp hcond)
        · exact h.1 z hzys

theorem sortByScoreDesc_pairwise (l : List Hyp) :
    (sortByScoreDesc l).Pairwise
      (fun a b => b.weighted_score ≤ a.weighted_score) := by
  induction l with
  | nil => simp [sortByScoreDesc]
  | cons x xs ih => exact insertByScore_pairwise x (sortByScoreDesc xs) ih

theorem rank_root_causes_score (hs : List Hyp) :
    ∀ h2 ∈ rank_root_causes hs,
      h2.weighted_score = h2.confidence * severity_weight h2.severity := by
  intro h2 hmem
  have hmap : h2 ∈ hs.map setWeightedScore :=
    (sortByScoreDesc_perm (hs.map setWeightedScore)).mem_iff.mp hmem
  obtain ⟨h0, _, heq⟩ := List.mem_map.mp hmap
  rw [← heq]
  rfl

/-- C6: ranked root causes carry `weighted_score = confidence ×
severity_weight` with weights high = 3, medium = 2, low = 1; the ranking
is a permutation of the scored hypotheses sorted descending by weighted
score (so of two hypotheses with equal positive confidence, one with
strictly higher severity weight never comes later); `analyze_root_cause`
returns the top-K slice (default K = 5) together with the mean confidence
over ALL ranked hypotheses, not just the returned slice. -/
theorem c6_ranking (hs : List Hyp) :
    (rank_root_causes hs).Perm (hs.map setWeightedScore) ∧
    (∀ h2 ∈ rank_root_causes hs,
      h2.weighted_score = h2.confidence * severity_weight h2.severity) ∧
    (rank_root_causes hs).Pairwise
      (fun a b => b.weighted_score ≤ a.weighted_score) ∧
    (rank_root_causes hs).Pairwise
      (fun a b => a.confidence = b.confidence → 0 < a.confidence →
        severity_weight b.severity ≤ severity_weight a.severity) ∧
    severity_weight "high" = 3 ∧ severity_weight "medium" = 2 ∧
    severity_weight "low" = 1 ∧
    analyze_root_cause_report hs =
      ((rank_root_causes hs).take rca_max_root_causes,
       ratMean ((rank_root_causes hs).map Hyp.confidence)) ∧
    rca_max_root_causes = 5 := by
  refine ⟨sortByScoreDesc_perm _, rank_root_causes_score hs, sortByScoreDesc_pairwise _,
    ?_, rfl, rfl, rfl, rfl, rfl⟩
  have hsc := rank_root_causes_score hs
  refine (sortByScoreDesc_pairwise (hs.map setWeightedScore)).imp_of_mem ?_
  intro a b ha hb hle hconf hpos
  have hA := hsc a ha
  have hB := hsc b hb
  rw [hA, hB, hconf] at hle
  exact le_of_mul_le_mul_left hle (hconf ▸ hpos)

/-- C6 witness: two hypotheses with equal confidence and severities low /
high are ranked with the high-severity one first, scores are confidence ×
weight, and the report takes the mean over all ranked hypotheses. -/
theorem c6_witness :
    (rank_root_causes
        [⟨"statistical_outlier", "m", 1/2, "low", 0⟩,
         ⟨"ai_anomaly", "m", 1/2, "high", 0⟩]).Pairwise
      (fun a b => b.weighted_score ≤ a.weighted_score) ∧
    (rank_root_causes
        [⟨"statistical_outlier", "m", 1/2, "low", 0⟩,
         ⟨"ai_anomaly", "m", 1/2, "high", 0⟩]).map Hyp.severity =
      ["high", "low"] := by
  constructor
  · exact (c6_ranking
      [⟨"statistical_outlier", "m", 1/2, "low", 0⟩,
       ⟨"ai_anomaly", "m", 1/2, "high", 0⟩]).2.2.1
  · with_unfolding_all decide

/-! ## Claim C7 -/

/-- C7 (amended): `dependency_bottleneck` hypotheses are generated only
from the top-3 entries of the degree-centrality ranking (entries beyond
the third are ignored), each generated for an entry whose centrality
strictly exceeds 0.8, with severity `high` and confidence
`min(0.8, centrality)` — which the strict gate makes constantly `0.8`,
not the centrality value. -/
theorem c7_dependency_bottleneck (bd : List (String × ℚ)) :
    (∀ h ∈ generate_dependency_hypotheses bd,
        h.htype = "dependency_bottleneck" ∧ h.severity = "high" ∧
        h.confidence = 4 / 5) ∧
    (∀ p ∈ bd.take 3, (4 : ℚ) / 5 < p.2 →
        (⟨"dependency_bottleneck", p.1, min ((4 : ℚ) / 5) p.2, "high", 0⟩ : Hyp) ∈
          generate_dependency_hypotheses bd) ∧
    generate_dependency_hypotheses bd =
      generate_dependency_hypotheses (bd.take 3) := by
  refine ⟨?_, ?_, ?_⟩
  · intro h hmem
    obtain ⟨p, hp, heq⟩ := List.mem_filterMap.mp hmem
    by_cases hgt : (4 : ℚ) / 5 < p.2
    · rw [if_pos hgt] at heq
      obtain rfl := Option.some.inj heq
      exact ⟨rfl, rfl, min_eq_left (le_of_lt hgt)⟩
    · rw [if_neg hgt] at heq
      cases heq
  · intro p hp hgt
    exact List.mem_filterMap.mpr ⟨p, hp, by rw [if_pos hgt]⟩
  · unfold generate_dependency_hypotheses
    rw [List.take_take]
    norm_num

/-- C7 witness: for the ranking `[("m1", 1)]` the generated hypothesis is
the high-severity record with confidence `min(0.8, 1)`. -/
theorem c7_witness :
    (⟨"dependency_bottleneck", "m1", min ((4 : ℚ) / 5) 1, "high", 0⟩ : Hyp) ∈
      generate_dependency_hypotheses [("m1", 1)] :=
  (c7_dependency_bottleneck [("m1", 1)]).2.1 ("m1", 1) (by simp) (by norm_num)

/-- C7 counterexample: the claim — a hypothesis exactly for each metric
with centrality above 0.8, with confidence equal to the centrality — is
false: for the ranking `[("m1", 1)]` the metric has centrality 1 > 0.8,
but no generated hypothesis carries confidence 1 (the code caps it at
`min(0.8, centrality) = 0.8`). -/
theorem c7_counterexample :
    ¬ (∀ (bd : List (String × ℚ)) (m : String) (c : ℚ), (m, c) ∈ bd →
        ((4 : ℚ) / 5 < c ↔ ∃ h, h ∈ generate_dependency_hypotheses bd ∧
          h.metric = m ∧ h.confidence = c ∧ h.severity = "high")) := by
  intro hclaim
  have hgen : generate_dependency_hypotheses [("m1", 1)] =
      [⟨"dependency_bottleneck", "m1", 4 / 5, "high", 0⟩] := by
    with_unfolding_all decide
  have hinst := (hclaim [("m1", 1)] "m1" 1 (by simp)).mp (by norm_num)
  obtain ⟨h, hmem, _, hc, _⟩ := hinst
  rw [hgen] at hmem
  rw [List.mem_singleton] at hmem
  rw [hmem] at hc
  norm_num at hc

/-! ## Claim C2 -/

/-- C2 (amended): the predictive-scaling train/test split is sklearn's
shuffled permutation split (test = rows at the first `⌈n·test_size⌉`
permuted indices, train = the rest), which is not time-ordered; a single
`StandardScaler` is fitted once on the training partition, stored under
`feature_scaler`, used to scale both partitions, and inference applies
exactly the stored scaler to its prepared features without refitting. -/
theorem c2_split_and_scaler (scalers : List (String × MScaler))
    (rows : List FeatRow) (perm : List ℕ) (xs : List (List ℚ)) :
    (pred_train_split_stage scalers rows perm).1 =
      shuffleSplit perm pred_test_size rows ∧
    (pred_train_split_stage scalers rows perm).2.2.2 =
      insertA "feature_scaler"
        (fitMScaler ((shuffleSplit perm pred_test_size rows).1.map FeatRow.feats))
        scalers ∧
    (pred_train_split_stage scalers rows perm).2.1 =
      applyMScaler
        (fitMScaler ((shuffleSplit perm pred_test_size rows).1.map FeatRow.feats))
        ((shuffleSplit perm pred_test_size rows).1.map FeatRow.feats) ∧
    (pred_train_split_stage scalers rows perm).2.2.1 =
      applyMScaler
        (fitMScaler ((shuffleSplit perm pred_test_size rows).1.map FeatRow.feats))
        ((shuffleSplit perm pred_test_size rows).2.map FeatRow.feats) ∧
    scale_for_inference (pred_train_split_stage scalers rows perm).2.2.2 xs =
      applyMScaler
        (fitMScaler ((shuffleSplit perm pred_test_size rows).1.map FeatRow.feats))
        xs := by
  refine ⟨rfl, rfl, rfl, rfl, ?_⟩
  show scale_for_inference
    (insertA "feature_scaler"
      (fitMScaler ((shuffleSplit perm pred_test_size rows).1.map FeatRow.feats))
      scalers) xs = _
  unfold scale_for_inference
  rw [lookupA_insertA_self]

/-- C2 counterexample: a sorted five-row feature table split with the
identity permutation of its indices is not time-ordered — the test rows
are drawn from the front of the permutation, so the training partition
contains rows with timestamps later than a test row. -/
theorem c2_counterexample :
    List.Pairwise (fun a b : FeatRow => a.ts ≤ b.ts)
      [⟨0, []⟩, ⟨1, []⟩, ⟨2, []⟩, ⟨3, []⟩, ⟨4, []⟩] ∧
    List.Perm [0, 1, 2, 3, 4]
      (List.range ([⟨0, []⟩, ⟨1, []⟩, ⟨2, []⟩, ⟨3, []⟩, (⟨4, []⟩ : FeatRow)].length)) ∧
    ¬ timeOrderedSplit [⟨0, []⟩, ⟨1, []⟩, ⟨2, []⟩, ⟨3, []⟩, ⟨4, []⟩]
        [0, 1, 2, 3, 4] := by
  with_unfolding_all decide

end DevOpsPilot
